import Mathlib

/-!
Verification development for the Pomodoro timer engine of
`ios-liquid-glass-pomodoro`.

The embedding covers:
* `src/store/timerStore.ts` — the Zustand store: state record, profiles,
  and the operations `startTimer`, `stopTimer` (pause), `resetTimer`,
  `setTimerMode`, `addProfile`, `deleteProfile`, `setActiveProfile`;
* `src/app/(tabs)/index.tsx` — the countdown interval callback
  (`remainingSeconds` computation, completion latch `isCompletingRef`,
  completion path writing to `SessionRepository`);
* `src/app/(tabs)/settings.tsx` — the `handleAddProfile` input-validation
  boundary (including a model of JavaScript `parseInt`);
* `src/repositories/SessionRepository.ts` — the `Session` record shape;
  the log is modelled as the list of appended sessions.

Modelling conventions: wall-clock instants are rationals in milliseconds,
durations are rationals in seconds (JS numbers are modelled exactly by ℚ).
`number | null` fields become `Option ℚ`.  JS code paths that would throw a
`TypeError` (reading `.workDuration` of `undefined` after an empty profile
lookup) are modelled with `Except Unit`.  Random id generation
(`Math.random().toString(36).substr(2, 9)`) is modelled by passing the drawn
id as an explicit argument.  Notification scheduling and haptics have no
effect on engine state and are not modelled.
-/

/-- Timer mode from `timerStore.ts` (`'focus' | 'break'`).  The break mode is
named `brk` because `break` is a Lean keyword. -/
inductive TimerMode where
  | focus
  | brk
deriving DecidableEq, Repr

/-- `TimerProfile` from `timerStore.ts`: a named pair of durations, in
minutes. -/
structure TimerProfile where
  id : String
  name : String
  workDuration : ℚ
  breakDuration : ℚ
deriving DecidableEq, Repr

/-- The built-in `Standard` profile from `DEFAULT_PROFILES`. -/
def standardProfile : TimerProfile := ⟨"standard", "Standard", 25, 5⟩

/-- The built-in `Short Focus` profile from `DEFAULT_PROFILES`. -/
def shortProfile : TimerProfile := ⟨"short", "Short Focus", 10, 5⟩

/-- `DEFAULT_PROFILES` from `timerStore.ts`. -/
def DEFAULT_PROFILES : List TimerProfile :=
  [standardProfile, shortProfile]

/-- The mutable fields of the Zustand `TimerState` in `timerStore.ts`.
`duration` is in seconds; `startTime` is an absolute instant in
milliseconds (`null` = `none`); `pausedTimeLeft` is in seconds. -/
structure TimerState where
  duration : ℚ
  startTime : Option ℚ
  isRunning : Bool
  timerMode : TimerMode
  pausedTimeLeft : Option ℚ
  profiles : List TimerProfile
  activeProfileId : String
deriving DecidableEq, Repr

/-- The initial store state from `timerStore.ts` (`duration: 25 * 60`,
idle, focus mode, default profiles, active profile `standard`). -/
def timerInitial : TimerState :=
  { duration := 25 * 60
    startTime := none
    isRunning := false
    timerMode := TimerMode.focus
    pausedTimeLeft := none
    profiles := DEFAULT_PROFILES
    activeProfileId := "standard" }

/-- The profile lookup pattern `profiles.find(p => p.id === activeProfileId)
|| profiles[0]` used by `resetTimer`, `setTimerMode` and `deleteProfile`.
Returns `none` exactly when the list is empty (the JS code would then read a
field of `undefined` and throw). -/
def lookupActiveProfile (profiles : List TimerProfile) (pid : String) :
    Option TimerProfile :=
  match profiles.find? (fun p => p.id = pid) with
  | some p => some p
  | none => profiles.head?

/-- The duration implied by a mode and a profile:
`mode === 'focus' ? workDuration * 60 : breakDuration * 60`. -/
def impliedDuration (m : TimerMode) (p : TimerProfile) : ℚ :=
  match m with
  | TimerMode.focus => p.workDuration * 60
  | TimerMode.brk => p.breakDuration * 60

/-- `startTimer` from `timerStore.ts` (lines 78–105).  `now` is
`Date.now()`.  Resumes from `pausedTimeLeft` when it is non-null, else runs
the current `duration`; sets the absolute `startTime` and clears
`pausedTimeLeft`.  (The notification scheduling has no effect on the
store.) -/
def startTimer (now : ℚ) (s : TimerState) : TimerState :=
  let effectiveDuration :=
    match s.pausedTimeLeft with
    | some t => t
    | none => s.duration
  { s with
    isRunning := true
    startTime := some now
    duration := effectiveDuration
    pausedTimeLeft := none }

/-- `stopTimer` (pause) from `timerStore.ts` (lines 113–129).  JS
truthiness of `startTime` is modelled exactly: the elapsed-time branch is
taken only for a non-null, nonzero `startTime`.  Stores
`pausedTimeLeft = timeLeft > 0 ? timeLeft : null`. -/
def stopTimer (now : ℚ) (s : TimerState) : TimerState :=
  let timeLeft :=
    match s.startTime with
    | some st => if st = 0 then s.duration else max 0 (s.duration - (now - st) / 1000)
    | none => s.duration
  { s with
    isRunning := false
    startTime := none
    pausedTimeLeft := if timeLeft > 0 then some timeLeft else none }

/-- `resetTimer` from `timerStore.ts` (lines 137–150).  Errors (JS
`TypeError`) when the profile set is empty, because
`(find(...) || profiles[0]).workDuration` reads a field of `undefined`. -/
def resetTimer (s : TimerState) : Except Unit TimerState :=
  match lookupActiveProfile s.profiles s.activeProfileId with
  | none => Except.error ()
  | some p =>
      Except.ok
        { s with
          isRunning := false
          startTime := none
          duration := p.workDuration * 60
          pausedTimeLeft := none
          timerMode := TimerMode.focus }

/-- `setTimerMode` from `timerStore.ts` (lines 152–166).  Errors when the
profile set is empty (same `undefined` field read as `resetTimer`). -/
def setTimerMode (m : TimerMode) (s : TimerState) : Except Unit TimerState :=
  match lookupActiveProfile s.profiles s.activeProfileId with
  | none => Except.error ()
  | some p =>
      Except.ok
        { s with
          timerMode := m
          duration := impliedDuration m p
          isRunning := false
          startTime := none
          pausedTimeLeft := none }

/-- `addProfile` from `timerStore.ts` (lines 168–180).  `fid` is the drawn
random id (`Math.random().toString(36).substr(2, 9)`), passed explicitly.
Appends the new profile and changes nothing else. -/
def addProfile (fid name : String) (workDuration breakDuration : ℚ)
    (s : TimerState) : TimerState :=
  { s with profiles := s.profiles ++ [⟨fid, name, workDuration, breakDuration⟩] }

/-- `deleteProfile` from `timerStore.ts` (lines 182–205).  Removes every
profile with the given id; if the active profile was removed, falls back to
the first remaining profile (`newProfiles[0]?.id || ''`).  Errors (JS
`TypeError`) when no profile remains, because the duration recomputation
reads a field of `undefined`.  Note: `pausedTimeLeft` is left unchanged and
there is no built-in-default check in the store. -/
def deleteProfile (pid : String) (s : TimerState) : Except Unit TimerState :=
  let newProfiles := s.profiles.filter (fun p => p.id ≠ pid)
  let newActiveId :=
    if s.activeProfileId = pid then
      match newProfiles.head? with
      | some p => p.id
      | none => ""
    else s.activeProfileId
  match lookupActiveProfile newProfiles newActiveId with
  | none => Except.error ()
  | some p =>
      Except.ok
        { s with
          profiles := newProfiles
          activeProfileId := newActiveId
          duration := impliedDuration s.timerMode p
          isRunning := false
          startTime := none }

/-- `setActiveProfile` from `timerStore.ts` (lines 207–218).  No-op when
the id names no profile; otherwise recomputes `duration` and clears
`isRunning`/`startTime` (but not `pausedTimeLeft`). -/
def setActiveProfile (pid : String) (s : TimerState) : TimerState :=
  match s.profiles.find? (fun p => p.id = pid) with
  | none => s
  | some p =>
      { s with
        activeProfileId := pid
        duration := impliedDuration s.timerMode p
        isRunning := false
        startTime := none }

/-- The remaining-time computation of the countdown interval in
`index.tsx` (lines 222–223):
`remaining = Math.max(0, duration - (Date.now() - startTime) / 1000)`.
`duration` in seconds, `startTime`/`now` in milliseconds. -/
def remainingSeconds (duration startTime now : ℚ) : ℚ :=
  max 0 (duration - (now - startTime) / 1000)

/-- Pure query log: the sequence of values produced by polling
`remainingSeconds` at a list of instants (the queries have no effect on any
state). -/
def queryLog (duration startTime : ℚ) (times : List ℚ) : List ℚ :=
  times.map (remainingSeconds duration startTime)

/-- `Session` from `SessionRepository.ts`. -/
structure Session where
  id : String
  startTime : ℚ
  duration : ℚ
  completedAt : ℚ
  type : TimerMode
deriving DecidableEq, Repr

/-- The values the countdown interval callback in `index.tsx` closes over
from the render in which the effect ran: `startTime`, `duration`,
`timerMode`.  A stale invocation of the callback keeps using these captured
values even after the store has moved on. -/
structure Captured where
  startTime : ℚ
  duration : ℚ
  timerMode : TimerMode
deriving DecidableEq, Repr

/-- The system state seen by `TimerScreen`: the Zustand store, the
completion latch `isCompletingRef`, and the Session Log (the list of
records appended through `SessionRepository.saveSession`). -/
structure SystemState where
  store : TimerState
  latch : Bool
  log : List Session
deriving DecidableEq, Repr

/-- The initial system: initial store, latch `useRef(false)`, empty log. -/
def systemInitial : SystemState :=
  { store := timerInitial, latch := false, log := [] }

/-- The mode flip in the completion path of `index.tsx` (lines 246–250). -/
def flipMode (m : TimerMode) : TimerMode :=
  match m with
  | TimerMode.focus => TimerMode.brk
  | TimerMode.brk => TimerMode.focus

/-- The countdown interval callback body from `index.tsx` (lines 219–252),
invoked with captured values `cap`, at instant `now`, with `sid` the random
id drawn for a saved session.  If `remaining <= 0` and the latch
`isCompletingRef` is not set: set the latch, run `stopTimer` on the store,
append a `Session` when `startTime && timerMode === 'focus'`, and flip the
mode via `setTimerMode` (which errors on an empty profile set).  Otherwise
only the displayed time changes, which is not part of this state. -/
def countdownTick (cap : Captured) (sid : String) (now : ℚ)
    (sys : SystemState) : Except Unit SystemState :=
  if remainingSeconds cap.duration cap.startTime now ≤ 0 ∧ sys.latch = false then
    match setTimerMode (flipMode cap.timerMode) (stopTimer now sys.store) with
    | Except.error e => Except.error e
    | Except.ok store2 =>
        Except.ok
          { store := store2
            latch := true
            log :=
              if cap.startTime ≠ 0 ∧ cap.timerMode = TimerMode.focus then
                sys.log ++ [⟨sid, cap.startTime, cap.duration, now, TimerMode.focus⟩]
              else sys.log }
  else
    Except.ok sys

/-- `start()` at the system level: `startTimer` on the store, plus the
effect in `index.tsx` (lines 209–213) that clears `isCompletingRef`
whenever a run (re)starts. -/
def systemStart (now : ℚ) (sys : SystemState) : SystemState :=
  { store := startTimer now sys.store, latch := false, log := sys.log }

/-- One step of the engine: any store operation invoked from the UI, or one
countdown tick (the completion path).  Operations that can throw step only
on their `ok` result (a thrown exception leaves the Zustand store
unchanged). -/
inductive SystemStep : SystemState → SystemState → Prop where
  | start (now : ℚ) (sys : SystemState) :
      SystemStep sys (systemStart now sys)
  | stop (now : ℚ) (sys : SystemState) :
      SystemStep sys { sys with store := stopTimer now sys.store }
  | reset (sys : SystemState) (s' : TimerState)
      (h : resetTimer sys.store = Except.ok s') :
      SystemStep sys { sys with store := s' }
  | setMode (m : TimerMode) (sys : SystemState) (s' : TimerState)
      (h : setTimerMode m sys.store = Except.ok s') :
      SystemStep sys { sys with store := s' }
  | setActive (pid : String) (sys : SystemState) :
      SystemStep sys { sys with store := setActiveProfile pid sys.store }
  | add (fid name : String) (w b : ℚ) (sys : SystemState) :
      SystemStep sys { sys with store := addProfile fid name w b sys.store }
  | delete (pid : String) (sys : SystemState) (s' : TimerState)
      (h : deleteProfile pid sys.store = Except.ok s') :
      SystemStep sys { sys with store := s' }
  | tick (cap : Captured) (sid : String) (now : ℚ) (sys sys' : SystemState)
      (h : countdownTick cap sid now sys = Except.ok sys') :
      SystemStep sys sys'

/-- States reachable from the initial system state via engine steps. -/
inductive Reachable : SystemState → Prop where
  | init : Reachable systemInitial
  | step {sys sys' : SystemState} :
      Reachable sys → SystemStep sys sys' → Reachable sys'

/-- Model of JavaScript `parseInt(str)` restricted to radix 10, as used in
`settings.tsx` `handleAddProfile`: skip leading whitespace, read an
optional sign and then the maximal run of leading decimal digits, ignoring
the rest of the string; `NaN` (here `none`) when no digit is read. -/
def jsParseInt (str : String) : Option ℤ :=
  let cs := str.toList.dropWhile Char.isWhitespace
  let signed : ℤ × List Char :=
    match cs with
    | '-' :: rest => (-1, rest)
    | '+' :: rest => (1, rest)
    | _ => (1, cs)
  let ds := signed.2.takeWhile Char.isDigit
  if ds = [] then none
  else some (signed.1 * ds.foldl (fun acc c => acc * 10 + ((c.toNat : ℤ) - 48)) 0)

/-- The validation boundary `handleAddProfile` from `settings.tsx`
(lines 67–86): rejects when any of the three text fields is the empty
string (JS falsiness of a string) or when either duration fails to parse
(`isNaN`); otherwise returns the arguments passed on to the store's
`addProfile`. -/
def handleAddProfile (name wStr bStr : String) : Option (String × ℤ × ℤ) :=
  if name = "" ∨ wStr = "" ∨ bStr = "" then none
  else
    match jsParseInt wStr, jsParseInt bStr with
    | some w, some b => some (name, w, b)
    | _, _ => none

/-- The `Running` case of the spec's state trichotomy:
`isRunning = true` with `startTimestamp` set. -/
def caseRunning (s : TimerState) : Prop :=
  s.isRunning = true ∧ s.startTime.isSome

/-- The `Paused` case of the spec's state trichotomy:
`isRunning = false` with `pausedRemainingSeconds` set. -/
def casePaused (s : TimerState) : Prop :=
  s.isRunning = false ∧ s.pausedTimeLeft.isSome

/-- The `Idle` case of the spec's state trichotomy:
`isRunning = false` with both fields absent. -/
def caseIdle (s : TimerState) : Prop :=
  s.isRunning = false ∧ s.startTime = none ∧ s.pausedTimeLeft = none

/-- Auxiliary strengthened invariant: a running store has `startTime` set
and no `pausedTimeLeft`; a non-running store has no `startTime`. -/
def runStateInv (s : TimerState) : Prop :=
  (s.isRunning = true ∧ s.startTime.isSome ∧ s.pausedTimeLeft = none) ∨
  (s.isRunning = false ∧ s.startTime = none)

/-- A store paused mid-run with 900 seconds remaining. -/
def pausedExample : TimerState :=
  { timerInitial with pausedTimeLeft := some 900 }

/-- The store after deleting the `standard` profile from the initial
state: only `Short Focus` remains and is active. -/
def storeOnlyShort : TimerState :=
  { timerInitial with
    profiles := [shortProfile]
    activeProfileId := "short"
    duration := 600 }

/-- A custom (non-built-in) profile `C`. -/
def customProfileC : TimerProfile := ⟨"c1", "Custom", 30, 10⟩

/-- Profiles `[A(default), B(default), C(custom)]` with `C` active. -/
def storeABC : TimerState :=
  { timerInitial with
    profiles := [standardProfile, shortProfile, customProfileC]
    activeProfileId := "c1" }

/-- The system reached by `start()` at 1000 ms, `pause()` 600 s later, and
`start()` again: the resumed run has an effective duration of 900 s. -/
def sysResumed : SystemState :=
  systemStart 700000
    { systemStart 1000 systemInitial with
      store := stopTimer 601000 (systemStart 1000 systemInitial).store }

/-! Helper lemmas shared by several claims. -/

theorem lookupActiveProfile_of_ne_nil (ps : List TimerProfile) (pid : String)
    (h : ps ≠ []) : ∃ p, lookupActiveProfile ps pid = some p := by
  unfold lookupActiveProfile
  cases hf : ps.find? (fun p => p.id = pid) with
  | some p => exact ⟨p, rfl⟩
  | none =>
      cases ps with
      | nil => exact absurd rfl h
      | cons a l => exact ⟨a, rfl⟩

theorem resetTimer_ok_fields (s s' : TimerState)
    (h : resetTimer s = Except.ok s') :
    s'.isRunning = false ∧ s'.startTime = none ∧ s'.pausedTimeLeft = none := by
  unfold resetTimer at h
  cases hl : lookupActiveProfile s.profiles s.activeProfileId with
  | none => rw [hl] at h; exact absurd h (by simp)
  | some p =>
      rw [hl] at h
      injection h with h
      rw [← h]
      exact ⟨rfl, rfl, rfl⟩

theorem setTimerMode_ok_fields (m : TimerMode) (s s' : TimerState)
    (h : setTimerMode m s = Except.ok s') :
    s'.isRunning = false ∧ s'.startTime = none ∧ s'.pausedTimeLeft = none ∧
    s'.timerMode = m ∧ s'.profiles = s.profiles ∧
    s'.activeProfileId = s.activeProfileId := by
  unfold setTimerMode at h
  cases hl : lookupActiveProfile s.profiles s.activeProfileId with
  | none => rw [hl] at h; exact absurd h (by simp)
  | some p =>
      rw [hl] at h
      injection h with h
      rw [← h]
      exact ⟨rfl, rfl, rfl, rfl, rfl, rfl⟩

theorem deleteProfile_ok_fields (pid : String) (s s' : TimerState)
    (h : deleteProfile pid s = Except.ok s') :
    s'.isRunning = false ∧ s'.startTime = none ∧
    s'.pausedTimeLeft = s.pausedTimeLeft := by
  simp only [deleteProfile] at h
  cases hl : lookupActiveProfile (s.profiles.filter (fun p => p.id ≠ pid))
      (if s.activeProfileId = pid then
        match (s.profiles.filter (fun p => p.id ≠ pid)).head? with
        | some p => p.id
        | none => ""
      else s.activeProfileId) with
  | none => rw [hl] at h; exact absurd h (by simp)
  | some p =>
      rw [hl] at h
      injection h with h
      rw [← h]
      exact ⟨rfl, rfl, rfl⟩

theorem setActiveProfile_cases (pid : String) (s : TimerState) :
    setActiveProfile pid s = s ∨
    ((setActiveProfile pid s).isRunning = false ∧
      (setActiveProfile pid s).startTime = none ∧
      (setActiveProfile pid s).pausedTimeLeft = s.pausedTimeLeft) := by
  unfold setActiveProfile
  cases hf : s.profiles.find? (fun p => p.id = pid) with
  | none => exact Or.inl rfl
  | some p => exact Or.inr ⟨rfl, rfl, rfl⟩

theorem stopTimer_profiles (now : ℚ) (s : TimerState) :
    (stopTimer now s).profiles = s.profiles := rfl

theorem countdownTick_ok_cases (cap : Captured) (sid : String) (now : ℚ)
    (sys sys' : SystemState) (h : countdownTick cap sid now sys = Except.ok sys') :
    sys' = sys ∨
    (sys'.store.isRunning = false ∧ sys'.store.startTime = none ∧
      sys'.store.pausedTimeLeft = none) := by
  unfold countdownTick at h
  by_cases hc : remainingSeconds cap.duration cap.startTime now ≤ 0 ∧ sys.latch = false
  · rw [if_pos hc] at h
    cases hm : setTimerMode (flipMode cap.timerMode) (stopTimer now sys.store) with
    | error e => rw [hm] at h; exact absurd h (by simp)
    | ok store2 =>
        rw [hm] at h
        injection h with h
        have hf := setTimerMode_ok_fields _ _ _ hm
        rw [← h]
        exact Or.inr ⟨hf.1, hf.2.1, hf.2.2.1⟩
  · rw [if_neg hc] at h
    injection h with h
    exact Or.inl h.symm

/-- C2: the remaining-time query `remaining = Math.max(0, duration -
(now - startTime) / 1000)` is a pure function of `now - startTime` and the
duration: it is invariant under shifting both instants, polling it at a
list of instants returns each value independently of the prior queries,
and at the half-way instant `startTime + (D/2)·1000 ms` it returns exactly
`D/2`. -/
theorem remainingSeconds_drift_free (D st now : ℚ) (hD : 0 ≤ D) :
    (∀ st' now', now' - st' = now - st →
      remainingSeconds D st' now' = remainingSeconds D st now) ∧
    (∀ prior : List ℚ,
      queryLog D st (prior ++ [now]) =
        queryLog D st prior ++ [remainingSeconds D st now]) ∧
    remainingSeconds D st (st + 500 * D) = D / 2 := by
  refine ⟨?_, ?_, ?_⟩
  · intro st' now' h
    unfold remainingSeconds
    rw [h]
  · intro prior
    simp [queryLog]
  · unfold remainingSeconds
    have h1 : D - (st + 500 * D - st) / 1000 = D / 2 := by ring
    rw [h1]
    exact max_eq_right (by linarith)

/-- C2 witness: drift-freedom instantiated at `D = 1500`, `startTime =
1000`: the query at the half-way instant returns 750. -/
theorem remainingSeconds_drift_free_witness :
    remainingSeconds 1500 1000 (1000 + 500 * 1500) = 1500 / 2 :=
  (remainingSeconds_drift_free 1500 1000 751000 (by norm_num)).2.2

/-- C4 counterexample: start at `t0 = 1000` ms with `D = 1500` s and pause
exactly at expiry (`e = 1500` s, so the claimed value `max(0, D - e)` is
`0`): the code stores `pausedTimeLeft = null` rather than `0`
(`timeLeft > 0 ? timeLeft : null`), and the next `start()` runs the full
current duration 1500, not the claimed stored value 0. -/
theorem pause_at_expiry_counterexample :
    (stopTimer (1000 + 1000 * 1500) (startTimer 1000 timerInitial)).pausedTimeLeft
        = none ∧
    (startTimer 2000000
        (stopTimer (1000 + 1000 * 1500) (startTimer 1000 timerInitial))).duration
        = 1500 := by
  constructor
  · simp [stopTimer, startTimer, timerInitial]
    norm_num
  · simp [stopTimer, startTimer, timerInitial]
    norm_num

/-- C4 (amended): for a run started at `t0 > 0` from a non-paused store
with duration `D`, pausing after `e` seconds with `0 ≤ e < D` stores
`pausedRemainingSeconds = D - e (= max(0, D - e))`, clears `startTime`,
sets `isRunning = false`, and a subsequent `start()` runs with effective
full length `D - e` (not `D`) and clears `pausedTimeLeft`.  When `e ≥ D`
the code instead stores nothing (`null`) and the next `start()` runs the
full duration. -/
theorem pause_resume_roundtrip (s : TimerState) (t0 e t1 : ℚ)
    (hpaused : s.pausedTimeLeft = none) (ht0 : 0 < t0) (he : 0 ≤ e)
    (hlt : e < s.duration) :
    (stopTimer (t0 + 1000 * e) (startTimer t0 s)).pausedTimeLeft
        = some (s.duration - e) ∧
    (stopTimer (t0 + 1000 * e) (startTimer t0 s)).startTime = none ∧
    (stopTimer (t0 + 1000 * e) (startTimer t0 s)).isRunning = false ∧
    (startTimer t1 (stopTimer (t0 + 1000 * e) (startTimer t0 s))).duration
        = s.duration - e ∧
    (startTimer t1 (stopTimer (t0 + 1000 * e) (startTimer t0 s))).pausedTimeLeft
        = none := by
  have harith : (t0 + 1000 * e - t0) / 1000 = e := by ring
  have hpos : 0 < s.duration - e := by linarith
  have hmax : max 0 (s.duration - e) = s.duration - e := max_eq_right hpos.le
  refine ⟨?_, rfl, rfl, ?_, rfl⟩
  · simp [stopTimer, startTimer, hpaused, ht0.ne', harith, hmax, hpos]
  · simp [stopTimer, startTimer, hpaused, ht0.ne', harith, hmax, hpos]

/-- C4 witness: `D = 1500`, pause 600 s in: stored remainder 900, and the
resumed run's effective duration is 900, not 1500. -/
theorem pause_resume_roundtrip_witness :
    (stopTimer (1000 + 1000 * 600) (startTimer 1000 timerInitial)).pausedTimeLeft
        = some (timerInitial.duration - 600) ∧
    (startTimer 700000
        (stopTimer (1000 + 1000 * 600) (startTimer 1000 timerInitial))).duration
        = timerInitial.duration - 600 := by
  have h := pause_resume_roundtrip timerInitial 1000 600 700000 rfl (by norm_num)
    (by norm_num) (by norm_num [timerInitial])
  exact ⟨h.1, h.2.2.2.1⟩

/-- C10 counterexample: on a non-running (paused) store with
`pausedTimeLeft = 900`, `setActiveProfile("short")` does not clear
`pausedTimeLeft` — the store op only resets `isRunning` and `startTime`
(`timerStore.ts` lines 210–216), so the claimed clearing of all
run-in-progress fields fails. -/
theorem setActiveProfile_paused_counterexample :
    pausedExample.isRunning = false ∧
    (setActiveProfile "short" pausedExample).activeProfileId = "short" ∧
    (setActiveProfile "short" pausedExample).pausedTimeLeft = some 900 := by
  refine ⟨rfl, ?_, ?_⟩
  · simp [setActiveProfile, pausedExample, timerInitial, DEFAULT_PROFILES,
      standardProfile, shortProfile]
  · simp [setActiveProfile, pausedExample, timerInitial, DEFAULT_PROFILES,
      standardProfile, shortProfile]

/-- C10 (amended): on a non-running store, `setActiveProfile(id)` with an
existing id sets `activeProfileId`, recomputes `duration` from the current
mode and the new profile, and clears `startTime` and `isRunning` — but
leaves `pausedRemainingSeconds` unchanged; with an unknown id it is a
no-op. -/
theorem setActiveProfile_spec (s : TimerState) (pid : String)
    (p : TimerProfile) (hnr : s.isRunning = false) :
    (s.profiles.find? (fun q => q.id = pid) = none →
      setActiveProfile pid s = s) ∧
    (s.profiles.find? (fun q => q.id = pid) = some p →
      (setActiveProfile pid s).activeProfileId = pid ∧
      (setActiveProfile pid s).duration = impliedDuration s.timerMode p ∧
      (setActiveProfile pid s).startTime = none ∧
      (setActiveProfile pid s).isRunning = false ∧
      (setActiveProfile pid s).pausedTimeLeft = s.pausedTimeLeft) := by
  constructor
  · intro h
    simp [setActiveProfile, h]
  · intro h
    simp [setActiveProfile, h]

/-- C10 witness: amended behaviour at the paused example store. -/
theorem setActiveProfile_spec_witness :
    (setActiveProfile "short" pausedExample).activeProfileId = "short" ∧
    (setActiveProfile "short" pausedExample).duration
        = impliedDuration pausedExample.timerMode shortProfile ∧
    (setActiveProfile "short" pausedExample).startTime = none ∧
    (setActiveProfile "short" pausedExample).isRunning = false ∧
    (setActiveProfile "short" pausedExample).pausedTimeLeft
        = pausedExample.pausedTimeLeft :=
  (setActiveProfile_spec pausedExample "short" shortProfile rfl).2
    (by simp [pausedExample, timerInitial, DEFAULT_PROFILES, standardProfile,
      shortProfile])

/-- C9 counterexample: `deleteProfile("standard")` on the initial store is
not a no-op even though `standard` is a built-in default profile: the
store removes it (the default-profile protection lives only in the
settings UI, which hides the delete button). -/
theorem deleteProfile_default_counterexample :
    deleteProfile "standard" timerInitial = Except.ok storeOnlyShort ∧
    deleteProfile "standard" timerInitial ≠ Except.ok timerInitial := by
  constructor
  · simp [deleteProfile, timerInitial, DEFAULT_PROFILES, standardProfile,
      shortProfile, lookupActiveProfile, impliedDuration, storeOnlyShort]
    norm_num
  · intro h
    have h2 : storeOnlyShort = timerInitial := by
      have h1 : deleteProfile "standard" timerInitial = Except.ok storeOnlyShort := by
        simp [deleteProfile, timerInitial, DEFAULT_PROFILES, standardProfile,
          shortProfile, lookupActiveProfile, impliedDuration, storeOnlyShort]
        norm_num
      rw [h1] at h
      injection h
    have h3 : storeOnlyShort.profiles.length = timerInitial.profiles.length := by
      rw [h2]
    simp [storeOnlyShort, timerInitial, DEFAULT_PROFILES] at h3

/-- C9 (amended): `deleteProfile(id)` removes the profile with that id
whether or not it is a built-in default (defaults are protected only in
the UI); if the removed profile was the active one, the first remaining
profile in the current ordering becomes active and `duration` is
recomputed from it and the current mode. -/
theorem deleteProfile_removes_and_falls_back (s : TimerState) (pid : String)
    (p0 : TimerProfile) (rest : List TimerProfile)
    (hact : s.activeProfileId = pid)
    (hfilter : s.profiles.filter (fun p => p.id ≠ pid) = p0 :: rest) :
    ∃ s', deleteProfile pid s = Except.ok s' ∧
      s'.profiles = p0 :: rest ∧
      s'.activeProfileId = p0.id ∧
      s'.duration = impliedDuration s.timerMode p0 ∧
      s'.isRunning = false ∧ s'.startTime = none := by
  have hdel : deleteProfile pid s = Except.ok
      { s with
        profiles := p0 :: rest
        activeProfileId := p0.id
        duration := impliedDuration s.timerMode p0
        isRunning := false
        startTime := none } := by
    simp only [deleteProfile, hfilter, hact, List.head?_cons]
    simp [lookupActiveProfile, List.find?]
  exact ⟨_, hdel, rfl, rfl, rfl, rfl, rfl⟩

/-- C9 witness: the spec's scenario `[A(default), B(default), C(custom)]`
with `C` active: deleting `C` makes `A` (first in order) active with
duration recomputed from `A`. -/
theorem deleteProfile_fallback_witness :
    ∃ s', deleteProfile "c1" storeABC = Except.ok s' ∧
      s'.profiles = standardProfile :: [shortProfile] ∧
      s'.activeProfileId = standardProfile.id ∧
      s'.duration = impliedDuration storeABC.timerMode standardProfile ∧
      s'.isRunning = false ∧ s'.startTime = none :=
  deleteProfile_removes_and_falls_back storeABC "c1" standardProfile
    [shortProfile] rfl
    (by simp [storeABC, timerInitial, DEFAULT_PROFILES, standardProfile,
      shortProfile, customProfileC])

/-- C8 counterexample: the boundary `handleAddProfile` accepts the inputs
`name = "x"`, work `"0"`, break `"5"` — `parseInt("0") = 0` is not `NaN`,
and positivity is never checked — so the engine is mutated with a
non-positive `workDuration`, contradicting the claimed validation of
positive integers. -/
theorem addProfile_validation_counterexample :
    handleAddProfile "x" "0" "5" = some ("x", 0, 5) ∧
    ¬(0 < (0 : ℤ)) ∧
    (addProfile "id0" "x" 0 5 timerInitial).profiles
        = DEFAULT_PROFILES ++ [⟨"id0", "x", 0, 5⟩] := by
  refine ⟨?_, by norm_num, ?_⟩
  · decide
  · simp [addProfile, timerInitial]

/-- C8 (amended): `handleAddProfile` rejects — before any engine mutation —
exactly the inputs with an empty name, an empty duration field, or a
duration that fails `parseInt` (positivity is not checked, and the 20-char
name bound is enforced only by the text field's `maxLength`, not by the
handler); on accepted input the store's `addProfile` appends exactly one
profile with the given fields and the generated id, changing neither the
active profile nor the running state nor any timer field. -/
theorem addProfile_validation (name wStr bStr fid : String) (w b : ℤ)
    (s : TimerState) :
    (handleAddProfile name wStr bStr = none ↔
      name = "" ∨ wStr = "" ∨ bStr = "" ∨
      jsParseInt wStr = none ∨ jsParseInt bStr = none) ∧
    (handleAddProfile name wStr bStr = some (name, w, b) →
      (addProfile fid name (w : ℚ) (b : ℚ) s).profiles
          = s.profiles ++ [⟨fid, name, (w : ℚ), (b : ℚ)⟩] ∧
      (addProfile fid name (w : ℚ) (b : ℚ) s).activeProfileId
          = s.activeProfileId ∧
      (addProfile fid name (w : ℚ) (b : ℚ) s).isRunning = s.isRunning ∧
      (addProfile fid name (w : ℚ) (b : ℚ) s).startTime = s.startTime ∧
      (addProfile fid name (w : ℚ) (b : ℚ) s).duration = s.duration ∧
      (addProfile fid name (w : ℚ) (b : ℚ) s).pausedTimeLeft
          = s.pausedTimeLeft ∧
      (addProfile fid name (w : ℚ) (b : ℚ) s).timerMode = s.timerMode) := by
  constructor
  · unfold handleAddProfile
    by_cases hemp : name = "" ∨ wStr = "" ∨ bStr = ""
    · simp [hemp]
      tauto
    · rw [if_neg hemp]
      cases hw : jsParseInt wStr with
      | none => simp [hw, hemp]
      | some wv =>
          cases hb : jsParseInt bStr with
          | none => simp [hw, hb, hemp]
          | some bv => simp [hw, hb, hemp]
  · intro _
    exact ⟨rfl, rfl, rfl, rfl, rfl, rfl, rfl⟩

/-- C8 witness: valid input `("x", "25", "5")` is accepted and appended to
the initial store's profiles with everything else unchanged. -/
theorem addProfile_validation_witness :
    (addProfile "id1" "x" ((25 : ℤ) : ℚ) ((5 : ℤ) : ℚ) timerInitial).profiles
        = timerInitial.profiles ++ [⟨"id1", "x", ((25 : ℤ) : ℚ), ((5 : ℤ) : ℚ)⟩] ∧
    (addProfile "id1" "x" ((25 : ℤ) : ℚ) ((5 : ℤ) : ℚ)
        timerInitial).activeProfileId = timerInitial.activeProfileId :=
  have h := (addProfile_validation "x" "25" "5" "id1" 25 5 timerInitial).2
    (by decide)
  ⟨h.1, h.2.1⟩

/-- C7 counterexample: on the valid-shaped store holding only the
`Short Focus` profile, `deleteProfile("short")` faults: the filtered list
is empty, so the duration recomputation reads `.workDuration` of
`undefined` (a JS `TypeError`, modelled as `Except.error`).  The operation
is therefore not total for every valid-shaped input. -/
theorem deleteProfile_throws_counterexample :
    deleteProfile "short" storeOnlyShort = Except.error () := by
  simp [deleteProfile, storeOnlyShort, timerInitial, shortProfile,
    lookupActiveProfile]

/-- C7 (amended): `startTimer`, `stopTimer`, `addProfile` and
`setActiveProfile` are total by construction (plain functions on the
state); `resetTimer` and `setTimerMode` never throw when the profile set
is nonempty; `deleteProfile` never throws as long as some profile with a
different id remains, and throws exactly when it removes the last
remaining profile; `setActiveProfile` with an id naming no profile is a
no-op. -/
theorem operations_total (s : TimerState) (m : TimerMode) (pid : String)
    (hne : s.profiles ≠ []) :
    (∃ s', resetTimer s = Except.ok s') ∧
    (∃ s', setTimerMode m s = Except.ok s') ∧
    ((∃ s', deleteProfile pid s = Except.ok s') ↔
      s.profiles.filter (fun p => p.id ≠ pid) ≠ []) ∧
    (s.profiles.find? (fun p => p.id = pid) = none →
      setActiveProfile pid s = s) := by
  refine ⟨?_, ?_, ?_, ?_⟩
  · obtain ⟨p, hp⟩ := lookupActiveProfile_of_ne_nil s.profiles s.activeProfileId hne
    cases hx : resetTimer s with
    | error e => exfalso; simp only [resetTimer] at hx; rw [hp] at hx; simp at hx
    | ok s' => exact ⟨s', rfl⟩
  · obtain ⟨p, hp⟩ := lookupActiveProfile_of_ne_nil s.profiles s.activeProfileId hne
    cases hx : setTimerMode m s with
    | error e => exfalso; simp only [setTimerMode] at hx; rw [hp] at hx; simp at hx
    | ok s' => exact ⟨s', rfl⟩
  · constructor
    · rintro ⟨s', hs'⟩ hfil
      simp only [deleteProfile, hfil] at hs'
      simp [lookupActiveProfile] at hs'
    · intro hfil
      obtain ⟨p, hp⟩ := lookupActiveProfile_of_ne_nil
        (s.profiles.filter (fun p => p.id ≠ pid))
        (if s.activeProfileId = pid then
          match (s.profiles.filter (fun p => p.id ≠ pid)).head? with
          | some q => q.id
          | none => ""
        else s.activeProfileId) hfil
      cases hx : deleteProfile pid s with
      | error e =>
          exfalso
          simp only [deleteProfile] at hx
          rw [hp] at hx
          simp at hx
      | ok s' => exact ⟨s', rfl⟩
  · intro h
    simp [setActiveProfile, h]

/-- C7 witness: on the initial store (nonempty profile set), `resetTimer`
and `setTimerMode('break')` succeed, `deleteProfile("standard")` succeeds
because the `Short Focus` profile remains, and `setActiveProfile` with an
unknown id is a no-op. -/
theorem operations_total_witness :
    (∃ s', resetTimer timerInitial = Except.ok s') ∧
    (∃ s', setTimerMode TimerMode.brk timerInitial = Except.ok s') ∧
    ((∃ s', deleteProfile "standard" timerInitial = Except.ok s') ↔
      timerInitial.profiles.filter (fun p => p.id ≠ "standard") ≠ []) ∧
    (timerInitial.profiles.find? (fun p => p.id = "standard") = none →
      setActiveProfile "standard" timerInitial = timerInitial) :=
  operations_total timerInitial TimerMode.brk "standard"
    (by simp [timerInitial, DEFAULT_PROFILES])

/-- C6 counterexample: the reachable state obtained by `start()` at
1000 ms, `pause()` 600 s later and `start()` again has
`duration = 900`, while the mode (`focus`) and the active profile
(`standard`, `workDuration = 25`) imply `1500`: the claimed invariant
fails on resumed runs, whose effective duration is the paused remainder. -/
theorem duration_invariant_counterexample :
    Reachable sysResumed ∧
    sysResumed.store.timerMode = TimerMode.focus ∧
    lookupActiveProfile sysResumed.store.profiles
        sysResumed.store.activeProfileId = some standardProfile ∧
    sysResumed.store.duration
        ≠ impliedDuration TimerMode.focus standardProfile := by
  refine ⟨?_, rfl, ?_, ?_⟩
  · exact Reachable.step
      (Reachable.step
        (Reachable.step Reachable.init (SystemStep.start 1000 systemInitial))
        (SystemStep.stop 601000 (systemStart 1000 systemInitial)))
      (SystemStep.start 700000 _)
  · simp [sysResumed, systemStart, systemInitial, startTimer, stopTimer,
      timerInitial, DEFAULT_PROFILES, standardProfile, shortProfile,
      lookupActiveProfile, List.find?]
  · have hdur : sysResumed.store.duration = 900 := by
      simp [sysResumed, systemStart, systemInitial, startTimer, stopTimer,
        timerInitial]
      norm_num
    rw [hdur]
    simp [impliedDuration, standardProfile]
    norm_num

/-- C6 (amended): `durationSeconds` is recomputed synchronously on every
mode switch (`setTimerMode`) and active-profile switch (`setActiveProfile`
and the `deleteProfile` fallback) to the value implied by the mode and the
active profile.  The equality is not an invariant of all reachable
states: `startTimer` resuming from pause sets `duration` to the paused
remainder instead. -/
theorem duration_recomputed_on_switch (s s₁ s₂ : TimerState) (m : TimerMode)
    (pid : String) (p : TimerProfile) :
    (setTimerMode m s = Except.ok s₁ →
      ∃ q, lookupActiveProfile s₁.profiles s₁.activeProfileId = some q ∧
        s₁.duration = impliedDuration m q) ∧
    (s.profiles.find? (fun q => q.id = pid) = some p →
      (setActiveProfile pid s).duration = impliedDuration s.timerMode p ∧
      (setActiveProfile pid s).activeProfileId = pid) ∧
    (deleteProfile pid s = Except.ok s₂ →
      ∃ q, lookupActiveProfile s₂.profiles s₂.activeProfileId = some q ∧
        s₂.duration = impliedDuration s.timerMode q) := by
  refine ⟨?_, ?_, ?_⟩
  · intro h
    cases hl : lookupActiveProfile s.profiles s.activeProfileId with
    | none => exfalso; unfold setTimerMode at h; rw [hl] at h; simp at h
    | some q =>
        unfold setTimerMode at h
        rw [hl] at h
        injection h with h
        refine ⟨q, ?_, ?_⟩
        · rw [← h]; exact hl
        · rw [← h]
  · intro h
    simp [setActiveProfile, h]
  · intro h
    cases hl : lookupActiveProfile (s.profiles.filter (fun q => q.id ≠ pid))
        (if s.activeProfileId = pid then
          match (s.profiles.filter (fun q => q.id ≠ pid)).head? with
          | some q => q.id
          | none => ""
        else s.activeProfileId) with
    | none =>
        exfalso
        simp only [deleteProfile] at h
        rw [hl] at h
        simp at h
    | some q =>
        simp only [deleteProfile] at h
        rw [hl] at h
        injection h with h
        refine ⟨q, ?_, ?_⟩
        · rw [← h]; exact hl
        · rw [← h]

/-- C6 witness: switching the initial store to break mode recomputes the
duration to the standard profile's break length (300 s), and switching the
active profile to `short` recomputes it to 600 s. -/
theorem duration_recomputed_on_switch_witness :
    ((setActiveProfile "short" timerInitial).duration
        = impliedDuration timerInitial.timerMode shortProfile ∧
      (setActiveProfile "short" timerInitial).activeProfileId = "short") :=
  (duration_recomputed_on_switch timerInitial timerInitial timerInitial
    TimerMode.brk "short" shortProfile).2.1
    (by simp [timerInitial, DEFAULT_PROFILES, standardProfile, shortProfile,
      List.find?])

/-- C5: when a run completes (`remaining <= 0`, latch clear), the
completion path appends exactly one `Session` for a focus phase — with the
completed run's captured `startTime` and `duration`, `completedAt` equal
to the completion instant, and `type = focus` — and appends nothing for a
break phase; the mode is flipped either way. -/
theorem completion_logs_focus_only (sys : SystemState) (cap : Captured)
    (sid : String) (now : ℚ)
    (hrun : sys.store.isRunning = true)
    (hstart : sys.store.startTime = some cap.startTime)
    (hdur : sys.store.duration = cap.duration)
    (hmode : sys.store.timerMode = cap.timerMode)
    (hlatch : sys.latch = false)
    (hrem : remainingSeconds cap.duration cap.startTime now ≤ 0)
    (hst : cap.startTime ≠ 0)
    (hne : sys.store.profiles ≠ []) :
    ∃ sys', countdownTick cap sid now sys = Except.ok sys' ∧
      sys'.log = (if cap.timerMode = TimerMode.focus then
          sys.log ++ [⟨sid, cap.startTime, cap.duration, now, TimerMode.focus⟩]
        else sys.log) ∧
      sys'.store.timerMode = flipMode cap.timerMode := by
  obtain ⟨p, hp⟩ := lookupActiveProfile_of_ne_nil
    (stopTimer now sys.store).profiles (stopTimer now sys.store).activeProfileId
    (by rw [stopTimer_profiles]; exact hne)
  cases hm : setTimerMode (flipMode cap.timerMode) (stopTimer now sys.store) with
  | error e => exfalso; unfold setTimerMode at hm; rw [hp] at hm; simp at hm
  | ok store2 =>
      refine ⟨{ store := store2
                latch := true
                log := if cap.startTime ≠ 0 ∧ cap.timerMode = TimerMode.focus then
                    sys.log ++ [⟨sid, cap.startTime, cap.duration, now,
                      TimerMode.focus⟩]
                  else sys.log }, ?_, ?_, ?_⟩
      · unfold countdownTick
        rw [if_pos ⟨hrem, hlatch⟩, hm]
      · simp [hst]
      · exact (setTimerMode_ok_fields _ _ _ hm).2.2.2.1

/-- C5 witness: a standard focus run captured at `startTime = 1000` ms,
`duration = 1500` s, completing at `now = 1501000` ms on the running
initial-profile store, appends exactly the one focus record. -/
theorem completion_logs_focus_only_witness :
    ∃ sys', countdownTick ⟨1000, 1500, TimerMode.focus⟩ "s1" 1501000
        { store := { timerInitial with isRunning := true, startTime := some 1000 }
          latch := false
          log := [] } = Except.ok sys' ∧
      sys'.log = (if (⟨1000, 1500, TimerMode.focus⟩ : Captured).timerMode
            = TimerMode.focus then
          ([] : List Session) ++ [⟨"s1", 1000, 1500, 1501000, TimerMode.focus⟩]
        else []) ∧
      sys'.store.timerMode = flipMode TimerMode.focus :=
  completion_logs_focus_only
    { store := { timerInitial with isRunning := true, startTime := some 1000 }
      latch := false
      log := [] }
    ⟨1000, 1500, TimerMode.focus⟩ "s1" 1501000 rfl rfl
    (by simp [timerInitial]; norm_num) rfl rfl
    (by simp [remainingSeconds]; norm_num) (by norm_num)
    (by simp [timerInitial, DEFAULT_PROFILES])

/-- C1: a completion tick on a running focus phase with the latch clear
appends exactly one record and flips the mode exactly once; it sets the
latch, any duplicate tick invocation afterwards (stale polling callback or
late completion signal, with the same captured values) leaves the system
exactly unchanged, and only a new `start()` clears the latch again. -/
theorem completion_idempotent (sys : SystemState) (cap : Captured)
    (sid : String) (now : ℚ)
    (hrun : sys.store.isRunning = true)
    (hstart : sys.store.startTime = some cap.startTime)
    (hdur : sys.store.duration = cap.duration)
    (hmode : sys.store.timerMode = cap.timerMode)
    (hlatch : sys.latch = false)
    (hrem : remainingSeconds cap.duration cap.startTime now ≤ 0)
    (hst : cap.startTime ≠ 0)
    (hfocus : cap.timerMode = TimerMode.focus)
    (hne : sys.store.profiles ≠ []) :
    ∃ sys', countdownTick cap sid now sys = Except.ok sys' ∧
      sys'.log = sys.log
        ++ [⟨sid, cap.startTime, cap.duration, now, TimerMode.focus⟩] ∧
      sys'.store.timerMode = TimerMode.brk ∧
      sys'.latch = true ∧
      (∀ sid₂ now₂, countdownTick cap sid₂ now₂ sys' = Except.ok sys') ∧
      (∀ now₃, (systemStart now₃ sys').latch = false) := by
  obtain ⟨p, hp⟩ := lookupActiveProfile_of_ne_nil
    (stopTimer now sys.store).profiles (stopTimer now sys.store).activeProfileId
    (by rw [stopTimer_profiles]; exact hne)
  cases hm : setTimerMode (flipMode cap.timerMode) (stopTimer now sys.store) with
  | error e => exfalso; unfold setTimerMode at hm; rw [hp] at hm; simp at hm
  | ok store2 =>
      refine ⟨{ store := store2
                latch := true
                log := if cap.startTime ≠ 0 ∧ cap.timerMode = TimerMode.focus then
                    sys.log ++ [⟨sid, cap.startTime, cap.duration, now,
                      TimerMode.focus⟩]
                  else sys.log }, ?_, ?_, ?_, ?_, ?_, ?_⟩
      · unfold countdownTick
        rw [if_pos ⟨hrem, hlatch⟩, hm]
      · simp [hst, hfocus]
      · have := (setTimerMode_ok_fields _ _ _ hm).2.2.2.1
        rw [this, hfocus]
        rfl
      · rfl
      · intro sid₂ now₂
        unfold countdownTick
        rw [if_neg]
        rintro ⟨-, hl⟩
        simp at hl
      · intro now₃
        rfl

/-- C1 witness: the completion tick at `now = 1501000` ms on the running
standard focus run appends one record, flips to break, sets the latch, a
duplicate tick at `now = 1501100` ms is the identity, and `start()` clears
the latch. -/
theorem completion_idempotent_witness :
    ∃ sys', countdownTick ⟨1000, 1500, TimerMode.focus⟩ "s1" 1501000
        { store := { timerInitial with isRunning := true, startTime := some 1000 }
          latch := false
          log := [] } = Except.ok sys' ∧
      sys'.log = ([] : List Session)
        ++ [⟨"s1", 1000, 1500, 1501000, TimerMode.focus⟩] ∧
      sys'.store.timerMode = TimerMode.brk ∧
      sys'.latch = true ∧
      (∀ sid₂ now₂, countdownTick ⟨1000, 1500, TimerMode.focus⟩ sid₂ now₂ sys'
          = Except.ok sys') ∧
      (∀ now₃, (systemStart now₃ sys').latch = false) :=
  completion_idempotent
    { store := { timerInitial with isRunning := true, startTime := some 1000 }
      latch := false
      log := [] }
    ⟨1000, 1500, TimerMode.focus⟩ "s1" 1501000 rfl rfl
    (by simp [timerInitial]; norm_num) rfl rfl
    (by simp [remainingSeconds]; norm_num) (by norm_num) rfl
    (by simp [timerInitial, DEFAULT_PROFILES])

/-- Each engine step preserves the strengthened run-state invariant. -/
theorem systemStep_preserves_runStateInv (a b : SystemState)
    (h : SystemStep a b) (ih : runStateInv a.store) : runStateInv b.store := by
  cases h with
  | start now s₀ => exact Or.inl ⟨rfl, rfl, rfl⟩
  | stop now s₀ => exact Or.inr ⟨rfl, rfl⟩
  | reset s₀ s' hok =>
      have hf := resetTimer_ok_fields _ _ hok
      exact Or.inr ⟨hf.1, hf.2.1⟩
  | setMode m s₀ s' hok =>
      have hf := setTimerMode_ok_fields _ _ _ hok
      exact Or.inr ⟨hf.1, hf.2.1⟩
  | setActive pid s₀ =>
      rcases setActiveProfile_cases pid a.store with heq | hf
      · simpa [heq] using ih
      · exact Or.inr ⟨hf.1, hf.2.1⟩
  | add fid name w b s₀ =>
      rcases ih with ⟨h1, h2, h3⟩ | ⟨h1, h2⟩
      · exact Or.inl ⟨h1, h2, h3⟩
      · exact Or.inr ⟨h1, h2⟩
  | delete pid s₀ s' hok =>
      have hf := deleteProfile_ok_fields _ _ _ hok
      exact Or.inr ⟨hf.1, hf.2.1⟩
  | tick cap sid now s₀ s₁ hok =>
      rcases countdownTick_ok_cases _ _ _ _ _ hok with heq | hf
      · rw [heq]; exact ih
      · exact Or.inr ⟨hf.1, hf.2.1⟩

/-- Every reachable system state satisfies the strengthened run-state
invariant: running implies `startTime` set and `pausedTimeLeft` absent;
not running implies `startTime` absent. -/
theorem reachable_runStateInv (sys : SystemState) (h : Reachable sys) :
    runStateInv sys.store := by
  induction h with
  | init => exact Or.inr ⟨rfl, rfl⟩
  | step hr hstep ih => exact systemStep_preserves_runStateInv _ _ hstep ih

/-- C3: in every state reachable from the initial system via the engine
operations (start, pause, reset, mode switch, profile operations and the
completion tick), exactly one of the three run-state cases holds: Running
(`isRunning` with `startTime` set), Paused (`isRunning = false` with
`pausedTimeLeft` set), or Idle (`isRunning = false` with both absent). -/
theorem reachable_run_state_trichotomy (sys : SystemState) (h : Reachable sys) :
    (caseRunning sys.store ∧ ¬casePaused sys.store ∧ ¬caseIdle sys.store) ∨
    (¬caseRunning sys.store ∧ casePaused sys.store ∧ ¬caseIdle sys.store) ∨
    (¬caseRunning sys.store ∧ ¬casePaused sys.store ∧ caseIdle sys.store) := by
  have hinv := reachable_runStateInv sys h
  simp only [caseRunning, casePaused, caseIdle]
  rcases hinv with ⟨h1, h2, h3⟩ | ⟨h1, h2⟩
  · left
    refine ⟨⟨h1, h2⟩, ?_, ?_⟩
    · rintro ⟨hf, -⟩
      rw [h1] at hf
      simp at hf
    · rintro ⟨hf, -⟩
      rw [h1] at hf
      simp at hf
  · cases hp : sys.store.pausedTimeLeft with
    | some v =>
        right; left
        refine ⟨?_, ⟨h1, rfl⟩, ?_⟩
        · rintro ⟨hf, -⟩
          rw [hf] at h1
          simp at h1
        · rintro ⟨-, -, hnone⟩
          simp at hnone
    | none =>
        right; right
        refine ⟨?_, ?_, ⟨h1, h2, rfl⟩⟩
        · rintro ⟨hf, -⟩
          rw [hf] at h1
          simp at h1
        · rintro ⟨-, hsome⟩
          simp at hsome

/-- C3 witness: the trichotomy at the initial (reachable) system state,
which is in the Idle case. -/
theorem reachable_run_state_trichotomy_witness :
    (caseRunning systemInitial.store ∧ ¬casePaused systemInitial.store ∧
        ¬caseIdle systemInitial.store) ∨
    (¬caseRunning systemInitial.store ∧ casePaused systemInitial.store ∧
        ¬caseIdle systemInitial.store) ∨
    (¬caseRunning systemInitial.store ∧ ¬casePaused systemInitial.store ∧
        caseIdle systemInitial.store) :=
  reachable_run_state_trichotomy systemInitial Reachable.init
